import Mathlib

/-!
Verification development for the `course_setup_md` note-scaffolding tool.

The program is embedded shallowly: pure Python string functions become Lean
functions on `String` / `List Char`, the interactive prompting loop becomes a
function over an explicit input-event list, and the file/directory side
effects become an explicit event list (`FsOp`).  All definitions are
translated from `course_setup_md.py`; `Spec`-suffixed definitions are the
only ones following the natural-language specification instead, for
refinement comparisons.
-/

namespace CourseSetup

/-- ASCII model of Python `str.lower` applied to one character (the program
only feeds ASCII-relevant data through `lower`). -/
def pyToLower (c : Char) : Char :=
  match c with
  | 'A' => 'a' | 'B' => 'b' | 'C' => 'c' | 'D' => 'd' | 'E' => 'e'
  | 'F' => 'f' | 'G' => 'g' | 'H' => 'h' | 'I' => 'i' | 'J' => 'j'
  | 'K' => 'k' | 'L' => 'l' | 'M' => 'm' | 'N' => 'n' | 'O' => 'o'
  | 'P' => 'p' | 'Q' => 'q' | 'R' => 'r' | 'S' => 's' | 'T' => 't'
  | 'U' => 'u' | 'V' => 'v' | 'W' => 'w' | 'X' => 'x' | 'Y' => 'y'
  | 'Z' => 'z'
  | c => c

/-- ASCII model of Python `str.upper` applied to one character. -/
def pyToUpper (c : Char) : Char :=
  match c with
  | 'a' => 'A' | 'b' => 'B' | 'c' => 'C' | 'd' => 'D' | 'e' => 'E'
  | 'f' => 'F' | 'g' => 'G' | 'h' => 'H' | 'i' => 'I' | 'j' => 'J'
  | 'k' => 'K' | 'l' => 'L' | 'm' => 'M' | 'n' => 'N' | 'o' => 'O'
  | 'p' => 'P' | 'q' => 'Q' | 'r' => 'R' | 's' => 'S' | 't' => 'T'
  | 'u' => 'U' | 'v' => 'V' | 'w' => 'W' | 'x' => 'X' | 'y' => 'Y'
  | 'z' => 'Z'
  | c => c

/-- The 26 lowercase ASCII letters, the image of `pyToLower` on uppercase. -/
def lcLetters : List Char :=
  ['a', 'b', 'c', 'd', 'e', 'f', 'g', 'h', 'i', 'j', 'k', 'l', 'm',
   'n', 'o', 'p', 'q', 'r', 's', 't', 'u', 'v', 'w', 'x', 'y', 'z']

theorem pyToLower_total (c : Char) : pyToLower c = c ∨ pyToLower c ∈ lcLetters := by
  unfold pyToLower
  split
  all_goals first
    | exact Or.inl rfl
    | exact Or.inr (by decide)

theorem pyToLower_of_mem_lc {c : Char} (h : c ∈ lcLetters) : pyToLower c = c := by
  fin_cases h <;> rfl

theorem pyToLower_idem (c : Char) : pyToLower (pyToLower c) = pyToLower c := by
  rcases pyToLower_total c with h | h
  · rw [h, h]
  · rw [pyToLower_of_mem_lc h]

/-- Python single-character `str.replace`: replace every occurrence of the
character `a` by the string `r` (for one-character patterns, Python's
left-to-right non-overlapping replacement is exactly a per-character map). -/
def pyReplace1 (a : Char) (r : List Char) : List Char → List Char
  | [] => []
  | x :: xs => if x = a then r ++ pyReplace1 a r xs else x :: pyReplace1 a r xs

theorem pyReplace1_append (a : Char) (r l₁ l₂ : List Char) :
    pyReplace1 a r (l₁ ++ l₂) = pyReplace1 a r l₁ ++ pyReplace1 a r l₂ := by
  induction l₁ with
  | nil => rfl
  | cons x xs ih =>
    simp only [List.cons_append, pyReplace1, ih]
    split <;> simp [ih]

/-- The character pipeline of `generate_slug` on character-list data: the
nine chained `str.replace` calls of the source followed by `str.lower`. -/
def slugData (s : List Char) : List Char :=
  (pyReplace1 (Char.ofNat 39) []
    (pyReplace1 ',' []
      (pyReplace1 '!' []
        (pyReplace1 '?' []
          (pyReplace1 '/' ['-']
            (pyReplace1 ':' ['_', '-']
              (pyReplace1 ' ' ['_']
                (pyReplace1 ')' []
                  (pyReplace1 '(' [] s))))))))).map pyToLower

/-- `generate_slug` from the source: chained replaces, then lowercase. -/
def generate_slug (title : String) : String :=
  ⟨slugData title.data⟩

theorem slugData_append (l₁ l₂ : List Char) :
    slugData (l₁ ++ l₂) = slugData l₁ ++ slugData l₂ := by
  simp only [slugData, pyReplace1_append, List.map_append]

theorem slugData_eq_flatMap (l : List Char) :
    slugData l = l.flatMap (fun c => slugData [c]) := by
  induction l with
  | nil => rfl
  | cons x xs ih =>
    have : (x :: xs) = [x] ++ xs := rfl
    rw [this, slugData_append, ih]
    simp

/-- The characters that `generate_slug` replaces or strips. -/
def slugSpecial : List Char :=
  ['(', ')', ' ', ':', '/', '?', '!', ',', Char.ofNat 39]

theorem slugData_singleton_of_not_special {c : Char} (h : c ∉ slugSpecial) :
    slugData [c] = [pyToLower c] := by
  simp only [slugSpecial, List.mem_cons, List.not_mem_nil, or_false, not_or] at h
  obtain ⟨h1, h2, h3, h4, h5, h6, h7, h8, h9⟩ := h
  simp only [slugData, pyReplace1, if_neg h1, if_neg h2, if_neg h3, if_neg h4,
    if_neg h5, if_neg h6, if_neg h7, if_neg h8]
  rw [if_neg (by exact h9)]
  rfl

theorem lcLetters_not_special : ∀ d ∈ lcLetters, d ∉ slugSpecial := by decide

theorem pyToLower_not_special {c : Char} (h : c ∉ slugSpecial) :
    pyToLower c ∉ slugSpecial := by
  rcases pyToLower_total c with heq | hmem
  · rw [heq]; exact h
  · exact lcLetters_not_special _ hmem

theorem slugData_fixed_char (c : Char) : slugData (slugData [c]) = slugData [c] := by
  by_cases h : c ∈ slugSpecial
  · fin_cases h <;> decide
  · rw [slugData_singleton_of_not_special h,
      slugData_singleton_of_not_special (pyToLower_not_special h), pyToLower_idem]

theorem slugData_idem (l : List Char) : slugData (slugData l) = slugData l := by
  induction l with
  | nil => rfl
  | cons x xs ih =>
    have hx : slugData (x :: xs) = slugData [x] ++ slugData xs := by
      rw [show x :: xs = [x] ++ xs from rfl, slugData_append]
    rw [hx, slugData_append, ih, slugData_fixed_char]

theorem slugData_all_char (c : Char) :
    (slugData [c]).all (fun d => !(decide (d ∈ slugSpecial))) = true := by
  by_cases h : c ∈ slugSpecial
  · fin_cases h <;> decide
  · rw [slugData_singleton_of_not_special h]
    simp [pyToLower_not_special h]

theorem slugData_all (l : List Char) :
    (slugData l).all (fun d => !(decide (d ∈ slugSpecial))) = true := by
  induction l with
  | nil => rfl
  | cons x xs ih =>
    have hx : slugData (x :: xs) = slugData [x] ++ slugData xs := by
      rw [show x :: xs = [x] ++ xs from rfl, slugData_append]
    rw [hx, List.all_append, slugData_all_char, ih]
    rfl

/-- `generate_slug` as the specification words it: the string lowercased with
space replaced by underscore, colon by the two characters underscore-hyphen,
slash by hyphen, and the stripped punctuation removed, one character at a
time. -/
def slugSpecChar (c : Char) : List Char :=
  if c = '(' ∨ c = ')' ∨ c = '?' ∨ c = '!' ∨ c = ',' ∨ c = Char.ofNat 39 then []
  else if c = ' ' then ['_']
  else if c = ':' then ['_', '-']
  else if c = '/' then ['-']
  else [pyToLower c]

/-- The slug transform described by the specification, for comparison with
the source-derived `generate_slug`. -/
def generate_slugSpec (s : String) : String :=
  ⟨s.data.flatMap slugSpecChar⟩

theorem slugData_char_eq_spec (c : Char) : slugData [c] = slugSpecChar c := by
  by_cases h : c ∈ slugSpecial
  · fin_cases h <;> decide
  · have h' := h
    simp only [slugSpecial, List.mem_cons, List.not_mem_nil, or_false, not_or] at h'
    obtain ⟨h1, h2, h3, h4, h5, h6, h7, h8, h9⟩ := h'
    rw [slugData_singleton_of_not_special h]
    simp [slugSpecChar, h1, h2, h3, h4, h5, h6, h7, h8, h9]

theorem slugData_eq_spec (l : List Char) : slugData l = l.flatMap slugSpecChar := by
  induction l with
  | nil => rfl
  | cons x xs ih =>
    have hx : slugData (x :: xs) = slugData [x] ++ slugData xs := by
      rw [show x :: xs = [x] ++ xs from rfl, slugData_append]
    rw [hx, ih, slugData_char_eq_spec]
    simp

/-- C3: for every input string, `generate_slug` is idempotent (applying it to
its own output returns the output unchanged), and its output contains none of
the characters `( ) / : ? ! , '` nor any space character. -/
theorem claim_C3 (s : String) :
    generate_slug (generate_slug s) = generate_slug s ∧
      (generate_slug s).data.all (fun d => !(decide (d ∈ slugSpecial))) = true := by
  constructor
  · exact congrArg String.mk (slugData_idem s.data)
  · exact slugData_all s.data

/-- C8: for every input string, `generate_slug` returns the string lowercased
with every space replaced by an underscore, every colon replaced by the two
characters `_-`, every slash replaced by a hyphen, and every parenthesis,
question mark, exclamation point, comma, and apostrophe removed; it is a
total function with no error cases (`generate_slugSpec` is that per-character
description, and `generate_slug` is defined for every string). -/
theorem claim_C8 (s : String) : generate_slug s = generate_slugSpec s :=
  congrArg String.mk (slugData_eq_spec s.data)

/-- Python's `\s` on the ASCII range: space, tab, newline, carriage return,
vertical tab, form feed. -/
def isPySpace (c : Char) : Bool :=
  c == ' ' || c == '\t' || c == '\n' || c == '\r' ||
    c == Char.ofNat 11 || c == Char.ofNat 12

mutual

/-- State of `re.split(r"(\s+)", text)` while inside a (possibly empty)
non-whitespace chunk; `acc` is the reversed chunk read so far. -/
def wordState (acc : List Char) : List Char → List (List Char)
  | [] => [acc.reverse]
  | c :: rest =>
    if isPySpace c then acc.reverse :: spaceState [c] rest
    else wordState (c :: acc) rest

/-- State of `re.split(r"(\s+)", text)` while inside a whitespace run. -/
def spaceState (acc : List Char) : List Char → List (List Char)
  | [] => [acc.reverse, []]
  | c :: rest =>
    if isPySpace c then spaceState (c :: acc) rest
    else acc.reverse :: wordState [c] rest

end

/-- `re.split(r"(\s+)", text)`: alternating non-whitespace chunks and
whitespace runs, keeping the separators, starting and ending with a possibly
empty non-whitespace chunk. -/
def splitWs (s : List Char) : List (List Char) := wordState [] s

/-- Greedily drop up to `n` leading copies of `c` (models a greedy
`c` followed by a bounded repetition such as `C` in `C` left-brace `0,3`
right-brace of the Roman-numeral regex). -/
def dropUpTo (c : Char) : Nat → List Char → List Char
  | _, [] => []
  | 0, l => l
  | n + 1, x :: xs => if x = c then dropUpTo c n xs else x :: xs

/-- The hundreds group `(C[MD]|D?C..3)` of the Roman-numeral regex, consuming
from the front and returning the rest.  Committing to the first alternative
is equivalent to the regex's backtracking search here because any character
the first alternative consumes cannot be consumed by any later group. -/
def romHundreds (s : List Char) : List Char :=
  match s with
  | 'C' :: 'M' :: r => r
  | 'C' :: 'D' :: r => r
  | 'D' :: r => dropUpTo 'C' 3 r
  | _ => dropUpTo 'C' 3 s

/-- The tens group `(X[CL]|L?X..3)` of the Roman-numeral regex. -/
def romTens (s : List Char) : List Char :=
  match s with
  | 'X' :: 'C' :: r => r
  | 'X' :: 'L' :: r => r
  | 'L' :: r => dropUpTo 'X' 3 r
  | _ => dropUpTo 'X' 3 s

/-- The units group `(I[XV]|V?I..3)` of the Roman-numeral regex. -/
def romUnits (s : List Char) : List Char :=
  match s with
  | 'I' :: 'X' :: r => r
  | 'I' :: 'V' :: r => r
  | 'V' :: r => dropUpTo 'I' 3 r
  | _ => dropUpTo 'I' 3 s

/-- The case-insensitive anchored Roman-numeral regex of `handle_title`:
a lookahead requiring a leading Roman letter, then `M*`, the hundreds, tens
and units groups, and end of string. -/
def romMatch (s : List Char) : Bool :=
  let u := s.map pyToUpper
  match u with
  | [] => false
  | c :: _ =>
    (decide (c ∈ ['M', 'D', 'C', 'L', 'X', 'V', 'I'])) &&
      (romUnits (romTens (romHundreds (u.dropWhile (· == 'M')))) == [])

/-- Python `str.capitalize` on ASCII data: first character upper-cased, the
rest lower-cased. -/
def pyCapitalize : List Char → List Char
  | [] => []
  | c :: r => pyToUpper c :: r.map pyToLower

/-- The fixed minor-word set of `handle_title`. -/
def lower_case_words : List String :=
  ["a", "an", "the", "and", "but", "or", "nor", "for", "so", "yet",
   "as", "at", "by", "down", "from", "in", "into", "like", "near",
   "of", "off", "on", "onto", "out", "over", "past", "per", "to",
   "up", "upon", "with", "via", "vs"]

/-- `handle_title` from the source: split on whitespace keeping separators;
a part matching the Roman regex is upper-cased; a part that is not a minor
word, or that equals the first part, is capitalized; remaining minor words
are lower-cased. -/
def handle_title (text : String) : String :=
  let parts := splitWs text.data
  let first := parts.headD []
  ⟨(parts.map (fun part =>
      if romMatch part then part.map pyToUpper
      else if (String.mk part ∉ lower_case_words) ∨ part = first then
        pyCapitalize part
      else part.map pyToLower)).flatten⟩

/-- C1: the claim says a minor word that is not the first word of the string
is always lower-cased.  The code instead compares each part against the first
part by value (`part == parts[0]`), so on "the cat or the dog" the second
"the" — a minor word that is not the first word — is capitalized, while the
claim requires "The Cat or the Dog".  The last three conjuncts check the
embedding against the repository's own unit-test vectors. -/
theorem claim_C1 :
    handle_title "the cat or the dog" = "The Cat or The Dog" ∧
      "The Cat or The Dog" ≠ "The Cat or the Dog" ∧
      handle_title "course title" = "Course Title" ∧
      handle_title "course title ii" = "Course Title II" ∧
      handle_title "title of the course" = "Title of the Course" := by
  refine ⟨by decide, by decide, by decide, by decide, by decide⟩

/-- `render_markdown` from the source: one fixed format string with the
title, the table of contents, an optional `dates` YAML field and a trailing
extra block spliced in.  The Python defaults (`dates=True`,
`extra="## Misc."`) become Lean default arguments. -/
def render_markdown (title table_of_contents : String) (dates : Bool := true)
    (extra : String := "## Misc.") : String :=
  "---\n" ++ "title: \"" ++ title ++ "\"\n" ++ "tags: []\n" ++
    (if dates then "dates: []" else "") ++ "\n" ++ "---\n" ++
    "# " ++ title ++ "\n" ++ "## TOC\n" ++ table_of_contents ++ "\n" ++
    "---\n" ++ extra

/-- Specification-side YAML front matter: delimiter, quoted title field,
empty tags list, the dates field when the flag is set (the line is empty
when the flag is cleared), delimiter. -/
def frontMatterSpec (title : String) (dates : Bool) : String :=
  "---\n" ++ ("title: \"" ++ title ++ "\"\n") ++ "tags: []\n" ++
    (if dates then "dates: []\n" else "\n") ++ "---\n"

/-- Specification-side H1 heading line. -/
def h1Spec (title : String) : String := "# " ++ title ++ "\n"

/-- Specification-side TOC section: a `## TOC` heading followed by the
supplied table-of-contents text. -/
def tocSectionSpec (toc : String) : String := "## TOC\n" ++ toc ++ "\n"

/-- Specification-side document assembly: front matter, H1, TOC section,
horizontal rule, then the extra block. -/
def renderSpec (title toc : String) (dates : Bool) (extra : String) : String :=
  frontMatterSpec title dates ++ h1Spec title ++ tocSectionSpec toc ++
    "---\n" ++ extra

/-- C5: for every title, TOC text, dates flag and extra block,
`render_markdown` produces exactly the structure the specification
describes — front matter with quoted title, empty tags list and (when the
flag is set) empty dates list between `---` delimiters, then the H1, the
`## TOC` section, a horizontal rule and the extra block — and the extra
block defaults to `## Misc.` when not supplied (second conjunct, using the
definition's default arguments). -/
theorem claim_C5 (title toc : String) (dates : Bool) (extra : String) :
    render_markdown title toc dates extra = renderSpec title toc dates extra ∧
      render_markdown title toc = renderSpec title toc true "## Misc." := by
  have hsplit : ∀ b : Bool,
      render_markdown title toc b extra = renderSpec title toc b extra := by
    intro b
    have hd : ("dates: []\n" : String).data =
        ("dates: []" : String).data ++ ("\n" : String).data := by decide
    have h0 : ("" : String).data = [] := rfl
    cases b <;>
      · apply String.ext
        simp [render_markdown, renderSpec, frontMatterSpec, h1Spec,
          tocSectionSpec, String.data_append, hd, h0, List.append_assoc]
  refine ⟨hsplit dates, ?_⟩
  have hd : ("dates: []\n" : String).data =
      ("dates: []" : String).data ++ ("\n" : String).data := by decide
  apply String.ext
  simp [render_markdown, renderSpec, frontMatterSpec, h1Spec,
    tocSectionSpec, String.data_append, hd, List.append_assoc]

/-- `INDEX_PAGE` constant of the source (`00-` index pages). -/
def INDEX_PAGE : Nat := 0

/-- `FLASHCARDS_PAGE` constant of the source (`99-` flashcard pages). -/
def FLASHCARDS_PAGE : Nat := 99

/-- Python `f"n:02d"` formatting for the non-negative indices the program
uses. -/
def pad02 (n : Nat) : String :=
  if n < 10 then "0" ++ toString n else toString n

/-- Python `f"n:02d"` formatting for the course number (an `int`, possibly
negative; a sign counts toward the width). -/
def padInt02 (n : Int) : String :=
  if 0 ≤ n ∧ n < 10 then "0" ++ toString n else toString n

/-- Python `enumerate(l, start=i)`. -/
def enum1 : Nat → List α → List (Nat × α)
  | _, [] => []
  | i, x :: xs => (i, x) :: enum1 (i + 1) xs

/-- One filesystem side effect, in program order: a file write
(`open(path, "w").write(...)`, truncating), the implicit
`Path(...).parent.mkdir(parents=True, exist_ok=True)` of the file writer, or
an explicit `os.makedirs(..., exist_ok=True)`. -/
inductive FsOp where
  | write (path content : String)
  | mkparent (path : String)
  | makedirs (path : String)
deriving DecidableEq, Repr

/-- `MarkdownPage` dataclass from the source. -/
structure MarkdownPage where
  title : String
  slug : String
  template : String
  filename : String
deriving DecidableEq, Repr

/-- `FileGenerator.create_markdown_file`: creates the parent directory of
`out_dir + "/" + filename` (the generated filenames contain no slash, so the
parent is `out_dir`) and writes the template, overwriting any existing
file. -/
def create_markdown_file (p : MarkdownPage) (out_dir : String) : List FsOp :=
  [.mkparent out_dir, .write (out_dir ++ "/" ++ p.filename) p.template]

/-- A `Section` as collected from user input: its title and its subsection
titles.  The derived fields of the Python class (`slug`, `index`,
`section_toc`) are functions of these and of the owning course, and are
computed where the source computes them. -/
structure SectionIn where
  section_title : String
  subsections : List String
deriving DecidableEq, Repr

/-- `Section.__init__` sets `self.slug = generate_slug(section_title)`. -/
def SectionIn.slug (s : SectionIn) : String := generate_slug s.section_title

/-- A `Course` as collected from user input.  The derived/mutated fields
(`slug`, `course_template`) are functions of these, computed by
`generate_course` before any read, and are threaded explicitly below. -/
structure CourseIn where
  course_title : String
  short_title : String
  course_number : Option Int
  sections : List SectionIn
deriving DecidableEq, Repr

/-- `Course.slug` as set by `generate_course`. -/
def CourseIn.slug (c : CourseIn) : String := generate_slug c.course_title

/-- `Course.output_dir`: the working directory joined with the course slug,
prefixed with the two-digit course number when one is present (Python
truthiness: `None` and `0` both mean no prefix). -/
def output_dir (c : CourseIn) (cwd : String) : String :=
  match c.course_number with
  | some n =>
    if n ≠ 0 then cwd ++ "/" ++ padInt02 n ++ "-" ++ c.slug
    else cwd ++ "/" ++ c.slug
  | none => cwd ++ "/" ++ c.slug

/-- `Section.generate_section_toc`.  The `section is self` object-identity
test of the source is modelled by comparing 1-based positions: the traversal
enumerates the very objects stored in `course.sections`, and `self` is the
one at position `self_idx`. -/
def generate_section_toc (self : SectionIn) (self_idx : Nat)
    (all_sections : List SectionIn) (c : CourseIn)
    (write_dirs no_toc : Bool) : String :=
  let head := "- [[" ++ pad02 INDEX_PAGE ++ "-" ++ c.slug ++ "|" ++
    c.short_title ++ " - " ++ handle_title c.course_title ++ "]]\n"
  let body := (enum1 1 all_sections).flatMap (fun si =>
    let sec_idx := si.1
    let sec := si.2
    let slug := generate_slug sec.section_title
    let num := pad02 sec_idx
    if write_dirs then
      ("- [[" ++ pad02 INDEX_PAGE ++ "-" ++ slug ++ "|" ++
        c.short_title ++ " - " ++ num ++ "." ++ pad02 INDEX_PAGE ++ " " ++
        "- " ++ handle_title sec.section_title ++ "]]\n") ::
      (if sec_idx = self_idx then
        ((enum1 1 self.subsections).map (fun sj =>
          "\t- [[" ++ pad02 sj.1 ++ "-" ++ generate_slug sj.2 ++ "|" ++
            c.short_title ++ " - " ++ pad02 sec_idx ++ "." ++ pad02 sj.1 ++
            " - " ++ handle_title sj.2 ++ "]]\n")) ++
        ["\t- [[" ++ toString FLASHCARDS_PAGE ++ "-flashcards_" ++ slug ++
          "|" ++ c.short_title ++ " - " ++ num ++ "." ++
          toString FLASHCARDS_PAGE ++ " " ++ "- " ++
          handle_title self.section_title ++ " Flashcards]]\n"]
      else [])
    else if ¬no_toc then
      ["- [[" ++ pad02 sec_idx ++ "-" ++ slug ++ "|" ++ c.short_title ++
        " - " ++ pad02 sec_idx ++ " " ++ "- " ++
        handle_title sec.section_title ++ "]]\n"]
    else [])
  String.join (head :: body)

/-- `Section.section_template`: the section index page text. -/
def section_template (self : SectionIn) (index : Nat) (c : CourseIn)
    (section_toc : String) : String :=
  let sec_num := pad02 index
  let sec_title := c.short_title ++ " - " ++ sec_num ++ "." ++
    pad02 INDEX_PAGE ++ " - " ++ handle_title self.section_title
  render_markdown sec_title section_toc

/-- `Section.flashcard_template`: the flashcard page text, with one H2 per
subsection and no dates field. -/
def flashcard_template (self : SectionIn) (index : Nat) (c : CourseIn)
    (section_toc : String) : String :=
  let sec_num := pad02 index
  let flashcards_title := c.short_title ++ " - " ++ sec_num ++ "." ++
    toString FLASHCARDS_PAGE ++ " - " ++
    handle_title self.section_title ++ " Flashcards"
  let sub_section_lines :=
    String.join (self.subsections.map (fun sub =>
      "## " ++ handle_title sub ++ "\n" ++ "\n" ++ "\n"))
  render_markdown flashcards_title section_toc false sub_section_lines

/-- The default extra block, and Python truthiness of `if extra_section:`
(both `None` and the empty string fall back to the default). -/
def pickExtra (e : Option String) : String :=
  match e with
  | none => "## Key Points/Concepts\n\n## Lecture\n\n## Misc."
  | some s => if s = "" then "## Key Points/Concepts\n\n## Lecture\n\n## Misc." else s

/-- `Course.generate_course_template`: the course index page text. -/
def generate_course_template (c : CourseIn) (write_dirs : Bool) : String :=
  let title := c.short_title ++ " - " ++ handle_title c.course_title
  let head := "- [[" ++ pad02 INDEX_PAGE ++ "-" ++ c.slug ++ "|" ++
    c.short_title ++ " - " ++ handle_title c.course_title ++ "]]\n"
  let body := (enum1 1 c.sections).flatMap (fun si =>
    let sec_idx := si.1
    let sec := si.2
    let sec_slug := generate_slug sec.section_title
    let sec_num := pad02 sec_idx
    if write_dirs then
      ("- [[" ++ pad02 INDEX_PAGE ++ "-" ++ sec_slug ++ "|" ++
        c.short_title ++ " - " ++ sec_num ++ "." ++ pad02 INDEX_PAGE ++
        " " ++ "- " ++ handle_title sec.section_title ++ "]]\n") ::
      ((enum1 1 sec.subsections).map (fun sj =>
        "\t- [[" ++ pad02 sj.1 ++ "-" ++ generate_slug sj.2 ++ "|" ++
          c.short_title ++ " - " ++ pad02 sec_idx ++ "." ++ pad02 sj.1 ++
          " - " ++ handle_title sj.2 ++ "]]\n") ++
      ["\t- [[" ++ toString FLASHCARDS_PAGE ++ "-flashcards_" ++ sec_slug ++
        "|" ++ c.short_title ++ " - " ++ sec_num ++ "." ++
        toString FLASHCARDS_PAGE ++ " " ++ "- " ++
        handle_title sec.section_title ++ " Flashcards]]\n"])
    else
      ["- [[" ++ pad02 sec_idx ++ "-" ++ sec_slug ++ "|" ++ c.short_title ++
        " - " ++ pad02 sec_idx ++ " " ++ "- " ++
        handle_title sec.section_title ++ "]]\n"])
  render_markdown title (String.join (head :: body)) false

/-- `Section.generate_dir_and_markdown_files`, as the list of filesystem
operations it performs, in order.  `course_template` is the value
`generate_course` stored on the course before the per-section loop. -/
def generate_dir_and_markdown_files (self : SectionIn) (index : Nat)
    (c : CourseIn) (write_dirs : Bool) (extra_section : Option String)
    (no_toc : Bool) (cwd : String) (course_template : String) : List FsOp :=
  let section_toc := generate_section_toc self index c.sections c write_dirs no_toc
  let out := output_dir c cwd
  if write_dirs then
    let outdir := out ++ "/" ++ pad02 index ++ "-" ++ self.slug
    [.makedirs (out ++ "/" ++ pad02 index ++ "-" ++ self.slug ++
        "/100-review_files/")] ++
    create_markdown_file
      ⟨self.section_title, self.slug,
        section_template self index c section_toc,
        pad02 INDEX_PAGE ++ "-" ++ self.slug ++ ".md"⟩ outdir ++
    create_markdown_file
      ⟨self.section_title ++ " Flashcards", self.slug,
        flashcard_template self index c section_toc,
        toString FLASHCARDS_PAGE ++ "-flashcards_" ++ self.slug ++ ".md"⟩
      outdir ++
    create_markdown_file
      ⟨c.course_title, c.slug, course_template,
        pad02 INDEX_PAGE ++ "-" ++ c.slug ++ ".md"⟩ out ++
    (enum1 1 self.subsections).flatMap (fun sj =>
      let sub_idx := sj.1
      let sub_section := sj.2
      let sub_num := pad02 index ++ "." ++ pad02 sub_idx
      let sub_title := c.short_title ++ " - " ++ sub_num ++ " - " ++
        handle_title sub_section
      let sub_template :=
        render_markdown sub_title section_toc true (pickExtra extra_section)
      let slug := generate_slug sub_section
      create_markdown_file
        ⟨sub_section, slug, sub_template,
          pad02 sub_idx ++ "-" ++ slug ++ ".md"⟩ outdir ++
      [.makedirs (outdir ++ "/100-review_files/" ++ pad02 sub_idx ++ "-" ++
        slug ++ "/")])
  else
    let outdir := out
    create_markdown_file
      ⟨c.course_title, c.slug, course_template,
        pad02 INDEX_PAGE ++ "-" ++ c.slug ++ ".md"⟩ out ++
    (let section_title := c.short_title ++ " - " ++ pad02 index ++ " - " ++
      handle_title self.section_title
    let sub_template :=
      render_markdown section_title section_toc true (pickExtra extra_section)
    create_markdown_file
      ⟨section_title, self.slug, sub_template,
        pad02 index ++ "-" ++ self.slug ++ ".md"⟩ outdir)

/-- `Course.generate_sections`: every section generates its directories and
files, enumerated from 1. -/
def generate_sections (c : CourseIn) (write_dirs : Bool)
    (extra_section : Option String) (no_toc : Bool) (cwd : String)
    (course_template : String) : List FsOp :=
  (enum1 1 c.sections).flatMap (fun si =>
    generate_dir_and_markdown_files si.2 si.1 c write_dirs extra_section
      no_toc cwd course_template)

/-- `Course.generate_course`: set the slug and course template, then
generate every section. -/
def generate_course (c : CourseIn) (write_dirs : Bool)
    (extra_section : Option String) (no_toc : Bool) (cwd : String) : List FsOp :=
  generate_sections c write_dirs extra_section no_toc cwd
    (generate_course_template c write_dirs)

/-- C9: a course with an empty sections list performs no filesystem
operation at all — no file write and no directory creation; in particular
the course index file, which is only written inside the per-section loop, is
not written. -/
theorem claim_C9 (ct st : String) (num : Option Int) (wd : Bool)
    (extra : Option String) (nt : Bool) (cwd : String) :
    generate_course ⟨ct, st, num, []⟩ wd extra nt cwd = [] := rfl

/-- The file writes among a list of filesystem operations, in order. -/
def writesOf (ops : List FsOp) : List (String × String) :=
  ops.filterMap (fun op =>
    match op with
    | .write p t => some (p, t)
    | _ => none)

/-- Filesystem contents as a map from path to file text; a write truncates
and replaces (the `"w"` open mode), so later writes win. -/
def applyWrites (ws : List (String × String)) (fs : String → Option String) :
    String → Option String :=
  ws.foldl (fun fs w => Function.update fs w.1 (some w.2)) fs

theorem applyWrites_congr (ws : List (String × String))
    (S T : String → Option String)
    (h : ∀ p, p ∉ ws.map Prod.fst → S p = T p) :
    applyWrites ws S = applyWrites ws T := by
  induction ws generalizing S T with
  | nil => funext p; exact h p (by simp)
  | cons w ws ih =>
    simp only [applyWrites, List.foldl_cons]
    apply ih
    intro p hp
    by_cases hw : p = w.1
    · subst hw; simp [Function.update]
    · simp only [Function.update, dif_neg hw]
      exact h p (by simp [hp, hw])

theorem applyWrites_not_written (ws : List (String × String))
    (S : String → Option String) (p : String) (hp : p ∉ ws.map Prod.fst) :
    applyWrites ws S p = S p := by
  induction ws generalizing S with
  | nil => rfl
  | cons w ws ih =>
    simp only [List.map_cons, List.mem_cons, not_or] at hp
    have hstep : applyWrites (w :: ws) S =
        applyWrites ws (Function.update S w.1 (some w.2)) := rfl
    rw [hstep, ih _ hp.2]
    simp [Function.update, hp.1]

/-- C6: the generation pipeline is a pure function of the collected input,
the flags and the working directory, so a second run issues exactly the same
write list; and since each write truncates and replaces its target, applying
that same write list on top of the first run's filesystem state leaves every
file byte-for-byte as the first run left it. -/
theorem claim_C6 (c : CourseIn) (wd : Bool) (extra : Option String)
    (nt : Bool) (cwd : String) (fs : String → Option String) :
    applyWrites (writesOf (generate_course c wd extra nt cwd))
        (applyWrites (writesOf (generate_course c wd extra nt cwd)) fs) =
      applyWrites (writesOf (generate_course c wd extra nt cwd)) fs := by
  apply applyWrites_congr
  intro p hp
  exact applyWrites_not_written _ _ _ hp

/-- The paths of the markdown files written by a list of filesystem
operations, in order. -/
def mdFilePathsOf (ops : List FsOp) : List String :=
  (writesOf ops).map Prod.fst

/-- The paths passed to `os.makedirs`, in order (the review-directory
tree). -/
def makedirsPathsOf (ops : List FsOp) : List String :=
  ops.filterMap (fun op =>
    match op with
    | .makedirs p => some p
    | _ => none)

/-- `listLeads pre l` decides whether `pre` is an initial segment of `l`
(used to express that a file path lies inside a directory). -/
def listLeads : List Char → List Char → Bool
  | [], _ => true
  | _ :: _, [] => false
  | c :: cs, d :: ds => c == d && listLeads cs ds

theorem listLeads_append_same (l a b : List Char) :
    listLeads (l ++ a) (l ++ b) = listLeads a b := by
  induction l with
  | nil => rfl
  | cons c cs ih => simp [listLeads, ih]

/-- `strStarts d p` decides whether the path `p` starts with the directory
path `d` (`d` carries its trailing slash), i.e. whether `p` names a file
inside `d`. -/
def strStarts (d p : String) : Bool := listLeads d.data p.data

theorem pad02_index_page : pad02 INDEX_PAGE = "00" := rfl

theorem pad02_one : pad02 1 = "01" := rfl

theorem pad02_two : pad02 2 = "02" := rfl

theorem flashcards_str : toString FLASHCARDS_PAGE = "99" := rfl

/-- The nine markdown file paths of a two-section, two-subsections-each
course in directory mode are pairwise distinct, whatever the slugs are: the
two-digit numeric prefixes and the directory layout already separate
them. -/
theorem c4_paths_nodup (out sl1 sl2 csl z11 z12 z21 z22 : String) :
    List.Nodup
      [out ++ "/" ++ pad02 1 ++ "-" ++ sl1 ++ "/" ++
         (pad02 INDEX_PAGE ++ "-" ++ sl1 ++ ".md"),
       out ++ "/" ++ pad02 1 ++ "-" ++ sl1 ++ "/" ++
         (toString FLASHCARDS_PAGE ++ "-flashcards_" ++ sl1 ++ ".md"),
       out ++ "/" ++ (pad02 INDEX_PAGE ++ "-" ++ csl ++ ".md"),
       out ++ "/" ++ pad02 1 ++ "-" ++ sl1 ++ "/" ++
         (pad02 1 ++ "-" ++ z11 ++ ".md"),
       out ++ "/" ++ pad02 1 ++ "-" ++ sl1 ++ "/" ++
         (pad02 2 ++ "-" ++ z12 ++ ".md"),
       out ++ "/" ++ pad02 2 ++ "-" ++ sl2 ++ "/" ++
         (pad02 INDEX_PAGE ++ "-" ++ sl2 ++ ".md"),
       out ++ "/" ++ pad02 2 ++ "-" ++ sl2 ++ "/" ++
         (toString FLASHCARDS_PAGE ++ "-flashcards_" ++ sl2 ++ ".md"),
       out ++ "/" ++ pad02 2 ++ "-" ++ sl2 ++ "/" ++
         (pad02 1 ++ "-" ++ z21 ++ ".md"),
       out ++ "/" ++ pad02 2 ++ "-" ++ sl2 ++ "/" ++
         (pad02 2 ++ "-" ++ z22 ++ ".md")] := by
  simp only [List.nodup_cons, List.mem_cons, List.not_mem_nil, or_false,
    not_or, List.nodup_nil, and_true]
  repeat' apply And.intro
  all_goals
    first
    | exact not_false
    | (apply String.ne_of_data_ne
       simp +decide [pad02_index_page, pad02_one, pad02_two, flashcards_str,
         String.data_append, List.append_assoc])

/-- No markdown file of a two-section, two-subsections-each course in
directory mode lies inside any of the created review directories: the
review tree stays empty. -/
theorem c4_review_empty (out sl1 sl2 csl z11 z12 z21 z22 : String) :
    ([out ++ "/" ++ pad02 1 ++ "-" ++ sl1 ++ "/" ++
        (pad02 INDEX_PAGE ++ "-" ++ sl1 ++ ".md"),
      out ++ "/" ++ pad02 1 ++ "-" ++ sl1 ++ "/" ++
        (toString FLASHCARDS_PAGE ++ "-flashcards_" ++ sl1 ++ ".md"),
      out ++ "/" ++ (pad02 INDEX_PAGE ++ "-" ++ csl ++ ".md"),
      out ++ "/" ++ pad02 1 ++ "-" ++ sl1 ++ "/" ++
        (pad02 1 ++ "-" ++ z11 ++ ".md"),
      out ++ "/" ++ pad02 1 ++ "-" ++ sl1 ++ "/" ++
        (pad02 2 ++ "-" ++ z12 ++ ".md"),
      out ++ "/" ++ pad02 2 ++ "-" ++ sl2 ++ "/" ++
        (pad02 INDEX_PAGE ++ "-" ++ sl2 ++ ".md"),
      out ++ "/" ++ pad02 2 ++ "-" ++ sl2 ++ "/" ++
        (toString FLASHCARDS_PAGE ++ "-flashcards_" ++ sl2 ++ ".md"),
      out ++ "/" ++ (pad02 INDEX_PAGE ++ "-" ++ csl ++ ".md"),
      out ++ "/" ++ pad02 2 ++ "-" ++ sl2 ++ "/" ++
        (pad02 1 ++ "-" ++ z21 ++ ".md"),
      out ++ "/" ++ pad02 2 ++ "-" ++ sl2 ++ "/" ++
        (pad02 2 ++ "-" ++ z22 ++ ".md")].all (fun p =>
      ([out ++ "/" ++ pad02 1 ++ "-" ++ sl1 ++ "/100-review_files/",
        out ++ "/" ++ pad02 1 ++ "-" ++ sl1 ++ "/100-review_files/" ++
          pad02 1 ++ "-" ++ z11 ++ "/",
        out ++ "/" ++ pad02 1 ++ "-" ++ sl1 ++ "/100-review_files/" ++
          pad02 2 ++ "-" ++ z12 ++ "/",
        out ++ "/" ++ pad02 2 ++ "-" ++ sl2 ++ "/100-review_files/",
        out ++ "/" ++ pad02 2 ++ "-" ++ sl2 ++ "/100-review_files/" ++
          pad02 1 ++ "-" ++ z21 ++ "/",
        out ++ "/" ++ pad02 2 ++ "-" ++ sl2 ++ "/100-review_files/" ++
          pad02 2 ++ "-" ++ z22 ++ "/"].all (fun d =>
        !(strStarts d p))))) = true := by
  simp +decide [strStarts, listLeads, listLeads_append_same,
    pad02_index_page, pad02_one, pad02_two, flashcards_str,
    String.data_append, List.append_assoc]

set_option maxHeartbeats 1600000 in
/-- C4: generating a course in directory mode with exactly two sections,
each with exactly two subsections, writes exactly nine distinct markdown
files — in write order the first section index, its flashcards file, the
course index, two subsection files, then the same for the second section
(the course index write is repeated, to the same path, so nine distinct
paths receive writes: 1 course index, 2 section indices, 2 flashcard files,
4 subsection files) — and the `os.makedirs` calls create exactly the
review-files directory tree mirroring the subsections, and no markdown file
lies inside any review directory, so the review tree is empty. -/
theorem claim_C4 (cwd ct st : String) (num : Option Int)
    (extra : Option String) (t1 t2 s11 s12 s21 s22 : String) :
    mdFilePathsOf (generate_course ⟨ct, st, num, [⟨t1, [s11, s12]⟩, ⟨t2, [s21, s22]⟩]⟩ true extra false cwd) =
      [output_dir ⟨ct, st, num, [⟨t1, [s11, s12]⟩, ⟨t2, [s21, s22]⟩]⟩ cwd ++ "/" ++ pad02 1 ++ "-" ++ generate_slug t1 ++ "/" ++ (pad02 INDEX_PAGE ++ "-" ++ generate_slug t1 ++ ".md"),
       output_dir ⟨ct, st, num, [⟨t1, [s11, s12]⟩, ⟨t2, [s21, s22]⟩]⟩ cwd ++ "/" ++ pad02 1 ++ "-" ++ generate_slug t1 ++ "/" ++ (toString FLASHCARDS_PAGE ++ "-flashcards_" ++ generate_slug t1 ++ ".md"),
       output_dir ⟨ct, st, num, [⟨t1, [s11, s12]⟩, ⟨t2, [s21, s22]⟩]⟩ cwd ++ "/" ++ (pad02 INDEX_PAGE ++ "-" ++ generate_slug ct ++ ".md"),
       output_dir ⟨ct, st, num, [⟨t1, [s11, s12]⟩, ⟨t2, [s21, s22]⟩]⟩ cwd ++ "/" ++ pad02 1 ++ "-" ++ generate_slug t1 ++ "/" ++ (pad02 1 ++ "-" ++ generate_slug s11 ++ ".md"),
       output_dir ⟨ct, st, num, [⟨t1, [s11, s12]⟩, ⟨t2, [s21, s22]⟩]⟩ cwd ++ "/" ++ pad02 1 ++ "-" ++ generate_slug t1 ++ "/" ++ (pad02 2 ++ "-" ++ generate_slug s12 ++ ".md"),
       output_dir ⟨ct, st, num, [⟨t1, [s11, s12]⟩, ⟨t2, [s21, s22]⟩]⟩ cwd ++ "/" ++ pad02 2 ++ "-" ++ generate_slug t2 ++ "/" ++ (pad02 INDEX_PAGE ++ "-" ++ generate_slug t2 ++ ".md"),
       output_dir ⟨ct, st, num, [⟨t1, [s11, s12]⟩, ⟨t2, [s21, s22]⟩]⟩ cwd ++ "/" ++ pad02 2 ++ "-" ++ generate_slug t2 ++ "/" ++ (toString FLASHCARDS_PAGE ++ "-flashcards_" ++ generate_slug t2 ++ ".md"),
       output_dir ⟨ct, st, num, [⟨t1, [s11, s12]⟩, ⟨t2, [s21, s22]⟩]⟩ cwd ++ "/" ++ (pad02 INDEX_PAGE ++ "-" ++ generate_slug ct ++ ".md"),
       output_dir ⟨ct, st, num, [⟨t1, [s11, s12]⟩, ⟨t2, [s21, s22]⟩]⟩ cwd ++ "/" ++ pad02 2 ++ "-" ++ generate_slug t2 ++ "/" ++ (pad02 1 ++ "-" ++ generate_slug s21 ++ ".md"),
       output_dir ⟨ct, st, num, [⟨t1, [s11, s12]⟩, ⟨t2, [s21, s22]⟩]⟩ cwd ++ "/" ++ pad02 2 ++ "-" ++ generate_slug t2 ++ "/" ++ (pad02 2 ++ "-" ++ generate_slug s22 ++ ".md")] ∧
    List.Nodup
      [output_dir ⟨ct, st, num, [⟨t1, [s11, s12]⟩, ⟨t2, [s21, s22]⟩]⟩ cwd ++ "/" ++ pad02 1 ++ "-" ++ generate_slug t1 ++ "/" ++ (pad02 INDEX_PAGE ++ "-" ++ generate_slug t1 ++ ".md"),
       output_dir ⟨ct, st, num, [⟨t1, [s11, s12]⟩, ⟨t2, [s21, s22]⟩]⟩ cwd ++ "/" ++ pad02 1 ++ "-" ++ generate_slug t1 ++ "/" ++ (toString FLASHCARDS_PAGE ++ "-flashcards_" ++ generate_slug t1 ++ ".md"),
       output_dir ⟨ct, st, num, [⟨t1, [s11, s12]⟩, ⟨t2, [s21, s22]⟩]⟩ cwd ++ "/" ++ (pad02 INDEX_PAGE ++ "-" ++ generate_slug ct ++ ".md"),
       output_dir ⟨ct, st, num, [⟨t1, [s11, s12]⟩, ⟨t2, [s21, s22]⟩]⟩ cwd ++ "/" ++ pad02 1 ++ "-" ++ generate_slug t1 ++ "/" ++ (pad02 1 ++ "-" ++ generate_slug s11 ++ ".md"),
       output_dir ⟨ct, st, num, [⟨t1, [s11, s12]⟩, ⟨t2, [s21, s22]⟩]⟩ cwd ++ "/" ++ pad02 1 ++ "-" ++ generate_slug t1 ++ "/" ++ (pad02 2 ++ "-" ++ generate_slug s12 ++ ".md"),
       output_dir ⟨ct, st, num, [⟨t1, [s11, s12]⟩, ⟨t2, [s21, s22]⟩]⟩ cwd ++ "/" ++ pad02 2 ++ "-" ++ generate_slug t2 ++ "/" ++ (pad02 INDEX_PAGE ++ "-" ++ generate_slug t2 ++ ".md"),
       output_dir ⟨ct, st, num, [⟨t1, [s11, s12]⟩, ⟨t2, [s21, s22]⟩]⟩ cwd ++ "/" ++ pad02 2 ++ "-" ++ generate_slug t2 ++ "/" ++ (toString FLASHCARDS_PAGE ++ "-flashcards_" ++ generate_slug t2 ++ ".md"),
       output_dir ⟨ct, st, num, [⟨t1, [s11, s12]⟩, ⟨t2, [s21, s22]⟩]⟩ cwd ++ "/" ++ pad02 2 ++ "-" ++ generate_slug t2 ++ "/" ++ (pad02 1 ++ "-" ++ generate_slug s21 ++ ".md"),
       output_dir ⟨ct, st, num, [⟨t1, [s11, s12]⟩, ⟨t2, [s21, s22]⟩]⟩ cwd ++ "/" ++ pad02 2 ++ "-" ++ generate_slug t2 ++ "/" ++ (pad02 2 ++ "-" ++ generate_slug s22 ++ ".md")] ∧
    (mdFilePathsOf (generate_course ⟨ct, st, num, [⟨t1, [s11, s12]⟩, ⟨t2, [s21, s22]⟩]⟩ true extra false cwd)).toFinset.card = 9 ∧
    makedirsPathsOf (generate_course ⟨ct, st, num, [⟨t1, [s11, s12]⟩, ⟨t2, [s21, s22]⟩]⟩ true extra false cwd) =
      [output_dir ⟨ct, st, num, [⟨t1, [s11, s12]⟩, ⟨t2, [s21, s22]⟩]⟩ cwd ++ "/" ++ pad02 1 ++ "-" ++ generate_slug t1 ++ "/100-review_files/",
       output_dir ⟨ct, st, num, [⟨t1, [s11, s12]⟩, ⟨t2, [s21, s22]⟩]⟩ cwd ++ "/" ++ pad02 1 ++ "-" ++ generate_slug t1 ++ "/100-review_files/" ++ pad02 1 ++ "-" ++ generate_slug s11 ++ "/",
       output_dir ⟨ct, st, num, [⟨t1, [s11, s12]⟩, ⟨t2, [s21, s22]⟩]⟩ cwd ++ "/" ++ pad02 1 ++ "-" ++ generate_slug t1 ++ "/100-review_files/" ++ pad02 2 ++ "-" ++ generate_slug s12 ++ "/",
       output_dir ⟨ct, st, num, [⟨t1, [s11, s12]⟩, ⟨t2, [s21, s22]⟩]⟩ cwd ++ "/" ++ pad02 2 ++ "-" ++ generate_slug t2 ++ "/100-review_files/",
       output_dir ⟨ct, st, num, [⟨t1, [s11, s12]⟩, ⟨t2, [s21, s22]⟩]⟩ cwd ++ "/" ++ pad02 2 ++ "-" ++ generate_slug t2 ++ "/100-review_files/" ++ pad02 1 ++ "-" ++ generate_slug s21 ++ "/",
       output_dir ⟨ct, st, num, [⟨t1, [s11, s12]⟩, ⟨t2, [s21, s22]⟩]⟩ cwd ++ "/" ++ pad02 2 ++ "-" ++ generate_slug t2 ++ "/100-review_files/" ++ pad02 2 ++ "-" ++ generate_slug s22 ++ "/"] ∧
    (mdFilePathsOf (generate_course ⟨ct, st, num, [⟨t1, [s11, s12]⟩, ⟨t2, [s21, s22]⟩]⟩ true extra false cwd)).all (fun p =>
      (makedirsPathsOf (generate_course ⟨ct, st, num, [⟨t1, [s11, s12]⟩, ⟨t2, [s21, s22]⟩]⟩ true extra false cwd)).all (fun d => !(strStarts d p))) = true := by
  have h1 : mdFilePathsOf (generate_course ⟨ct, st, num, [⟨t1, [s11, s12]⟩, ⟨t2, [s21, s22]⟩]⟩ true extra false cwd) =
      [output_dir ⟨ct, st, num, [⟨t1, [s11, s12]⟩, ⟨t2, [s21, s22]⟩]⟩ cwd ++ "/" ++ pad02 1 ++ "-" ++ generate_slug t1 ++ "/" ++ (pad02 INDEX_PAGE ++ "-" ++ generate_slug t1 ++ ".md"),
       output_dir ⟨ct, st, num, [⟨t1, [s11, s12]⟩, ⟨t2, [s21, s22]⟩]⟩ cwd ++ "/" ++ pad02 1 ++ "-" ++ generate_slug t1 ++ "/" ++ (toString FLASHCARDS_PAGE ++ "-flashcards_" ++ generate_slug t1 ++ ".md"),
       output_dir ⟨ct, st, num, [⟨t1, [s11, s12]⟩, ⟨t2, [s21, s22]⟩]⟩ cwd ++ "/" ++ (pad02 INDEX_PAGE ++ "-" ++ generate_slug ct ++ ".md"),
       output_dir ⟨ct, st, num, [⟨t1, [s11, s12]⟩, ⟨t2, [s21, s22]⟩]⟩ cwd ++ "/" ++ pad02 1 ++ "-" ++ generate_slug t1 ++ "/" ++ (pad02 1 ++ "-" ++ generate_slug s11 ++ ".md"),
       output_dir ⟨ct, st, num, [⟨t1, [s11, s12]⟩, ⟨t2, [s21, s22]⟩]⟩ cwd ++ "/" ++ pad02 1 ++ "-" ++ generate_slug t1 ++ "/" ++ (pad02 2 ++ "-" ++ generate_slug s12 ++ ".md"),
       output_dir ⟨ct, st, num, [⟨t1, [s11, s12]⟩, ⟨t2, [s21, s22]⟩]⟩ cwd ++ "/" ++ pad02 2 ++ "-" ++ generate_slug t2 ++ "/" ++ (pad02 INDEX_PAGE ++ "-" ++ generate_slug t2 ++ ".md"),
       output_dir ⟨ct, st, num, [⟨t1, [s11, s12]⟩, ⟨t2, [s21, s22]⟩]⟩ cwd ++ "/" ++ pad02 2 ++ "-" ++ generate_slug t2 ++ "/" ++ (toString FLASHCARDS_PAGE ++ "-flashcards_" ++ generate_slug t2 ++ ".md"),
       output_dir ⟨ct, st, num, [⟨t1, [s11, s12]⟩, ⟨t2, [s21, s22]⟩]⟩ cwd ++ "/" ++ (pad02 INDEX_PAGE ++ "-" ++ generate_slug ct ++ ".md"),
       output_dir ⟨ct, st, num, [⟨t1, [s11, s12]⟩, ⟨t2, [s21, s22]⟩]⟩ cwd ++ "/" ++ pad02 2 ++ "-" ++ generate_slug t2 ++ "/" ++ (pad02 1 ++ "-" ++ generate_slug s21 ++ ".md"),
       output_dir ⟨ct, st, num, [⟨t1, [s11, s12]⟩, ⟨t2, [s21, s22]⟩]⟩ cwd ++ "/" ++ pad02 2 ++ "-" ++ generate_slug t2 ++ "/" ++ (pad02 2 ++ "-" ++ generate_slug s22 ++ ".md")] := by
    simp only [mdFilePathsOf, makedirsPathsOf, writesOf, generate_course,
      generate_sections, generate_dir_and_markdown_files,
      create_markdown_file, enum1, SectionIn.slug, CourseIn.slug,
      List.flatMap_cons, List.flatMap_nil, List.cons_append, List.nil_append,
      List.append_nil, List.singleton_append, List.filterMap_cons,
      List.filterMap_nil, List.map_cons, List.map_nil, reduceIte]
  have h4 : makedirsPathsOf (generate_course ⟨ct, st, num, [⟨t1, [s11, s12]⟩, ⟨t2, [s21, s22]⟩]⟩ true extra false cwd) =
      [output_dir ⟨ct, st, num, [⟨t1, [s11, s12]⟩, ⟨t2, [s21, s22]⟩]⟩ cwd ++ "/" ++ pad02 1 ++ "-" ++ generate_slug t1 ++ "/100-review_files/",
       output_dir ⟨ct, st, num, [⟨t1, [s11, s12]⟩, ⟨t2, [s21, s22]⟩]⟩ cwd ++ "/" ++ pad02 1 ++ "-" ++ generate_slug t1 ++ "/100-review_files/" ++ pad02 1 ++ "-" ++ generate_slug s11 ++ "/",
       output_dir ⟨ct, st, num, [⟨t1, [s11, s12]⟩, ⟨t2, [s21, s22]⟩]⟩ cwd ++ "/" ++ pad02 1 ++ "-" ++ generate_slug t1 ++ "/100-review_files/" ++ pad02 2 ++ "-" ++ generate_slug s12 ++ "/",
       output_dir ⟨ct, st, num, [⟨t1, [s11, s12]⟩, ⟨t2, [s21, s22]⟩]⟩ cwd ++ "/" ++ pad02 2 ++ "-" ++ generate_slug t2 ++ "/100-review_files/",
       output_dir ⟨ct, st, num, [⟨t1, [s11, s12]⟩, ⟨t2, [s21, s22]⟩]⟩ cwd ++ "/" ++ pad02 2 ++ "-" ++ generate_slug t2 ++ "/100-review_files/" ++ pad02 1 ++ "-" ++ generate_slug s21 ++ "/",
       output_dir ⟨ct, st, num, [⟨t1, [s11, s12]⟩, ⟨t2, [s21, s22]⟩]⟩ cwd ++ "/" ++ pad02 2 ++ "-" ++ generate_slug t2 ++ "/100-review_files/" ++ pad02 2 ++ "-" ++ generate_slug s22 ++ "/"] := by
    simp only [mdFilePathsOf, makedirsPathsOf, writesOf, generate_course,
      generate_sections, generate_dir_and_markdown_files,
      create_markdown_file, enum1, SectionIn.slug, CourseIn.slug,
      List.flatMap_cons, List.flatMap_nil, List.cons_append, List.nil_append,
      List.append_nil, List.singleton_append, List.filterMap_cons,
      List.filterMap_nil, List.map_cons, List.map_nil, reduceIte]
  refine ⟨h1, c4_paths_nodup _ _ _ _ _ _ _ _, ?_, h4, ?_⟩
  · rw [h1]
    have hset :
        ([output_dir ⟨ct, st, num, [⟨t1, [s11, s12]⟩, ⟨t2, [s21, s22]⟩]⟩ cwd ++ "/" ++ pad02 1 ++ "-" ++ generate_slug t1 ++ "/" ++ (pad02 INDEX_PAGE ++ "-" ++ generate_slug t1 ++ ".md"),
         output_dir ⟨ct, st, num, [⟨t1, [s11, s12]⟩, ⟨t2, [s21, s22]⟩]⟩ cwd ++ "/" ++ pad02 1 ++ "-" ++ generate_slug t1 ++ "/" ++ (toString FLASHCARDS_PAGE ++ "-flashcards_" ++ generate_slug t1 ++ ".md"),
         output_dir ⟨ct, st, num, [⟨t1, [s11, s12]⟩, ⟨t2, [s21, s22]⟩]⟩ cwd ++ "/" ++ (pad02 INDEX_PAGE ++ "-" ++ generate_slug ct ++ ".md"),
         output_dir ⟨ct, st, num, [⟨t1, [s11, s12]⟩, ⟨t2, [s21, s22]⟩]⟩ cwd ++ "/" ++ pad02 1 ++ "-" ++ generate_slug t1 ++ "/" ++ (pad02 1 ++ "-" ++ generate_slug s11 ++ ".md"),
         output_dir ⟨ct, st, num, [⟨t1, [s11, s12]⟩, ⟨t2, [s21, s22]⟩]⟩ cwd ++ "/" ++ pad02 1 ++ "-" ++ generate_slug t1 ++ "/" ++ (pad02 2 ++ "-" ++ generate_slug s12 ++ ".md"),
         output_dir ⟨ct, st, num, [⟨t1, [s11, s12]⟩, ⟨t2, [s21, s22]⟩]⟩ cwd ++ "/" ++ pad02 2 ++ "-" ++ generate_slug t2 ++ "/" ++ (pad02 INDEX_PAGE ++ "-" ++ generate_slug t2 ++ ".md"),
         output_dir ⟨ct, st, num, [⟨t1, [s11, s12]⟩, ⟨t2, [s21, s22]⟩]⟩ cwd ++ "/" ++ pad02 2 ++ "-" ++ generate_slug t2 ++ "/" ++ (toString FLASHCARDS_PAGE ++ "-flashcards_" ++ generate_slug t2 ++ ".md"),
         output_dir ⟨ct, st, num, [⟨t1, [s11, s12]⟩, ⟨t2, [s21, s22]⟩]⟩ cwd ++ "/" ++ (pad02 INDEX_PAGE ++ "-" ++ generate_slug ct ++ ".md"),
         output_dir ⟨ct, st, num, [⟨t1, [s11, s12]⟩, ⟨t2, [s21, s22]⟩]⟩ cwd ++ "/" ++ pad02 2 ++ "-" ++ generate_slug t2 ++ "/" ++ (pad02 1 ++ "-" ++ generate_slug s21 ++ ".md"),
         output_dir ⟨ct, st, num, [⟨t1, [s11, s12]⟩, ⟨t2, [s21, s22]⟩]⟩ cwd ++ "/" ++ pad02 2 ++ "-" ++ generate_slug t2 ++ "/" ++ (pad02 2 ++ "-" ++ generate_slug s22 ++ ".md")] : List String).toFinset =
        ([output_dir ⟨ct, st, num, [⟨t1, [s11, s12]⟩, ⟨t2, [s21, s22]⟩]⟩ cwd ++ "/" ++ pad02 1 ++ "-" ++ generate_slug t1 ++ "/" ++ (pad02 INDEX_PAGE ++ "-" ++ generate_slug t1 ++ ".md"),
         output_dir ⟨ct, st, num, [⟨t1, [s11, s12]⟩, ⟨t2, [s21, s22]⟩]⟩ cwd ++ "/" ++ pad02 1 ++ "-" ++ generate_slug t1 ++ "/" ++ (toString FLASHCARDS_PAGE ++ "-flashcards_" ++ generate_slug t1 ++ ".md"),
         output_dir ⟨ct, st, num, [⟨t1, [s11, s12]⟩, ⟨t2, [s21, s22]⟩]⟩ cwd ++ "/" ++ (pad02 INDEX_PAGE ++ "-" ++ generate_slug ct ++ ".md"),
         output_dir ⟨ct, st, num, [⟨t1, [s11, s12]⟩, ⟨t2, [s21, s22]⟩]⟩ cwd ++ "/" ++ pad02 1 ++ "-" ++ generate_slug t1 ++ "/" ++ (pad02 1 ++ "-" ++ generate_slug s11 ++ ".md"),
         output_dir ⟨ct, st, num, [⟨t1, [s11, s12]⟩, ⟨t2, [s21, s22]⟩]⟩ cwd ++ "/" ++ pad02 1 ++ "-" ++ generate_slug t1 ++ "/" ++ (pad02 2 ++ "-" ++ generate_slug s12 ++ ".md"),
         output_dir ⟨ct, st, num, [⟨t1, [s11, s12]⟩, ⟨t2, [s21, s22]⟩]⟩ cwd ++ "/" ++ pad02 2 ++ "-" ++ generate_slug t2 ++ "/" ++ (pad02 INDEX_PAGE ++ "-" ++ generate_slug t2 ++ ".md"),
         output_dir ⟨ct, st, num, [⟨t1, [s11, s12]⟩, ⟨t2, [s21, s22]⟩]⟩ cwd ++ "/" ++ pad02 2 ++ "-" ++ generate_slug t2 ++ "/" ++ (toString FLASHCARDS_PAGE ++ "-flashcards_" ++ generate_slug t2 ++ ".md"),
         output_dir ⟨ct, st, num, [⟨t1, [s11, s12]⟩, ⟨t2, [s21, s22]⟩]⟩ cwd ++ "/" ++ pad02 2 ++ "-" ++ generate_slug t2 ++ "/" ++ (pad02 1 ++ "-" ++ generate_slug s21 ++ ".md"),
         output_dir ⟨ct, st, num, [⟨t1, [s11, s12]⟩, ⟨t2, [s21, s22]⟩]⟩ cwd ++ "/" ++ pad02 2 ++ "-" ++ generate_slug t2 ++ "/" ++ (pad02 2 ++ "-" ++ generate_slug s22 ++ ".md")] : List String).toFinset := by
      ext x
      simp only [List.toFinset_cons, List.toFinset_nil, Finset.mem_insert,
        Finset.not_mem_empty, or_false]
      constructor
      · rintro (rfl | rfl | rfl | rfl | rfl | rfl | rfl | rfl | rfl | rfl) <;>
          simp
      · rintro (rfl | rfl | rfl | rfl | rfl | rfl | rfl | rfl | rfl) <;> simp
    rw [hset,
      List.toFinset_card_of_nodup (c4_paths_nodup _ _ _ _ _ _ _ _)]
    rfl
  · rw [h1, h4]
    exact c4_review_empty (output_dir ⟨ct, st, num, [⟨t1, [s11, s12]⟩, ⟨t2, [s21, s22]⟩]⟩ cwd) (generate_slug t1) (generate_slug t2)
      (generate_slug ct) (generate_slug s11) (generate_slug s12)
      (generate_slug s21) (generate_slug s22)

/-- Python `str.strip()` on ASCII data: whitespace removed from both
ends. -/
def pyStrip (s : String) : String :=
  ⟨(((s.data.dropWhile isPySpace).reverse).dropWhile isPySpace).reverse⟩

/-- Decimal value of an ASCII digit. -/
def digitVal (c : Char) : Nat := c.toNat - 48

/-- Continuation of Python `int()` digit parsing: after at least one digit,
further digits may be separated by single underscores; anything else is a
`ValueError`. -/
def pyDigitsGo (acc : Nat) : List Char → Option Nat
  | [] => some acc
  | '_' :: c :: rest =>
    if c.isDigit then pyDigitsGo (acc * 10 + digitVal c) rest else none
  | ['_'] => none
  | c :: rest =>
    if c.isDigit then pyDigitsGo (acc * 10 + digitVal c) rest else none

/-- Python `int()` digit-run parsing: one or more digits, with single
underscores allowed between digits. -/
def pyDigits : List Char → Option Nat
  | [] => none
  | c :: rest => if c.isDigit then pyDigitsGo (digitVal c) rest else none

/-- Python `int(s)` on an already-stripped string: optional sign, then a
digit run; `none` models the `ValueError`. -/
def pyInt? (s : String) : Option Int :=
  match s.data with
  | '+' :: rest => (pyDigits rest).map (fun n => (n : Int))
  | '-' :: rest => (pyDigits rest).map (fun n => -(n : Int))
  | l => (pyDigits l).map (fun n => (n : Int))

/-- The interactive input stream: each element is one answered prompt
(`some line`) or one `input()` call that raises `EOFError` (`none`); an
exhausted list means every further read raises `EOFError`, as at a closed
stdin. -/
abbrev Inp := List (Option String)

/-- The course-number prompt loop: blank accepts no number, a valid integer
accepts, a `ValueError` re-prompts; an `EOFError` here is not caught, so the
whole input collection aborts (`none`). -/
def numberLoop : Inp → Option (Option Int × Inp)
  | [] => none
  | none :: _ => none
  | some s :: rest =>
    let t := pyStrip s
    if t = "" then some (none, rest)
    else
      match pyInt? t with
      | some n => some (some n, rest)
      | none => numberLoop rest

/-- The course-title prompt loop: re-prompts while the stripped line is
empty; an `EOFError` here is not caught either. -/
def titleLoop : Inp → Option (String × Inp)
  | [] => none
  | none :: _ => none
  | some s :: rest =>
    let t := pyStrip s
    if t = "" then titleLoop rest else some (t, rest)

mutual

/-- The section-title loop: `EOFError` (explicit or from an exhausted
stream) is caught and ends the loop; in directory mode each section title
hands over to the subsection loop. -/
def secLoop (wd : Bool) : Inp → List SectionIn × Inp
  | [] => ([], [])
  | none :: rest => ([], rest)
  | some s :: rest =>
    if wd then subLoopIn wd (pyStrip s) [] rest
    else
      let r := secLoop wd rest
      (⟨pyStrip s, []⟩ :: r.1, r.2)

/-- The subsection loop of the current section (`acc` holds the collected
subsection titles in reverse): `EOFError` is caught, the finished section is
appended, and the section loop continues; on an exhausted stream the next
section-title read raises `EOFError` again, ending the outer loop too. -/
def subLoopIn (wd : Bool) (title : String) (acc : List String) :
    Inp → List SectionIn × Inp
  | [] => ([⟨title, acc.reverse⟩], [])
  | none :: rest =>
    let r := secLoop wd rest
    (⟨title, acc.reverse⟩ :: r.1, r.2)
  | some s :: rest => subLoopIn wd title (pyStrip s :: acc) rest

end

/-- `get_user_input`: course number, course title and short title prompts in
sequence (an uncaught `EOFError` in any of them aborts with `none`), then
the section/subsection loops, producing the collected `Course`. -/
def get_user_input (write_dirs : Bool) (inp : Inp) : Option CourseIn :=
  match numberLoop inp with
  | none => none
  | some (num, r1) =>
    match titleLoop r1 with
    | none => none
    | some (title, r2) =>
      match r2 with
      | [] => none
      | none :: _ => none
      | some st :: r3 =>
        let secs := secLoop write_dirs r3
        some ⟨title, pyStrip st, num, secs.1⟩

/-- Hexadecimal digit value, `none` for a non-hex character. -/
def hexVal? (c : Char) : Option Nat :=
  if '0' ≤ c ∧ c ≤ '9' then some (c.toNat - 48)
  else if 'a' ≤ c ∧ c ≤ 'f' then some (c.toNat - 87)
  else if 'A' ≤ c ∧ c ≤ 'F' then some (c.toNat - 55)
  else none

/-- Octal digit value. -/
def octVal (c : Char) : Nat := c.toNat - 48

/-- Parser state of the `unicode_escape` codec: ordinary text, just after
a backslash, one or two octal digits consumed (with their value), or an
expected run of hex digits (count still missing, accumulated value, and
whether the bound-checked 8-digit form is being read). -/
inductive EscState where
  | norm
  | esc
  | oct1 (v : Nat)
  | oct2 (v : Nat)
  | hex (pending acc : Nat) (bigU : Bool)

/-- Python's `unicode_escape` codec on ASCII data, one character per step;
`none` models a `UnicodeDecodeError`.  Handled exactly as the codec does:
backslash-newline line continuation; the single-character escapes; one to
three octal digits; `x` with exactly two hex digits, `u` with exactly four,
`U` with exactly eight (and at most U+10FFFF) — a truncated hex escape or a
trailing backslash is an error; an unrecognized escape keeps the backslash
and the character.  Two declared idealizations: named escapes (backslash
`N`) are conservatively modelled as errors (the real codec substitutes the
named character when the name exists), and Lean characters cannot hold the
lone surrogates Python strings admit, so a hex escape in the surrogate
range maps to the null character; no claim depends on either corner. -/
def unescSt : EscState → List Char → Option (List Char)
  | .norm, [] => some []
  | .norm, c :: r =>
    if c = '\\' then unescSt .esc r
    else (unescSt .norm r).map (fun l => c :: l)
  | .esc, [] => none
  | .esc, c :: r =>
    if c = '\n' then unescSt .norm r
    else if c = '\\' then (unescSt .norm r).map (fun l => '\\' :: l)
    else if c = Char.ofNat 39 then
      (unescSt .norm r).map (fun l => Char.ofNat 39 :: l)
    else if c = Char.ofNat 34 then
      (unescSt .norm r).map (fun l => Char.ofNat 34 :: l)
    else if c = 'b' then (unescSt .norm r).map (fun l => Char.ofNat 8 :: l)
    else if c = 'f' then (unescSt .norm r).map (fun l => Char.ofNat 12 :: l)
    else if c = 't' then (unescSt .norm r).map (fun l => '\t' :: l)
    else if c = 'n' then (unescSt .norm r).map (fun l => '\n' :: l)
    else if c = 'r' then (unescSt .norm r).map (fun l => '\r' :: l)
    else if c = 'v' then (unescSt .norm r).map (fun l => Char.ofNat 11 :: l)
    else if c = 'a' then (unescSt .norm r).map (fun l => Char.ofNat 7 :: l)
    else if '0' ≤ c ∧ c ≤ '7' then unescSt (.oct1 (octVal c)) r
    else if c = 'x' then unescSt (.hex 2 0 false) r
    else if c = 'u' then unescSt (.hex 4 0 false) r
    else if c = 'U' then unescSt (.hex 8 0 true) r
    else if c = 'N' then none
    else (unescSt .norm r).map (fun l => '\\' :: c :: l)
  | .oct1 v, [] => some [Char.ofNat v]
  | .oct1 v, c :: r =>
    if '0' ≤ c ∧ c ≤ '7' then unescSt (.oct2 (v * 8 + octVal c)) r
    else if c = '\\' then (unescSt .esc r).map (fun l => Char.ofNat v :: l)
    else (unescSt .norm r).map (fun l => Char.ofNat v :: c :: l)
  | .oct2 v, [] => some [Char.ofNat v]
  | .oct2 v, c :: r =>
    if '0' ≤ c ∧ c ≤ '7' then
      (unescSt .norm r).map (fun l => Char.ofNat (v * 8 + octVal c) :: l)
    else if c = '\\' then (unescSt .esc r).map (fun l => Char.ofNat v :: l)
    else (unescSt .norm r).map (fun l => Char.ofNat v :: c :: l)
  | .hex _ _ _, [] => none
  | .hex p acc bigU, c :: r =>
    match hexVal? c with
    | none => none
    | some h =>
      if p ≤ 1 then
        if bigU ∧ acc * 16 + h > 1114111 then none
        else (unescSt .norm r).map (fun l => Char.ofNat (acc * 16 + h) :: l)
      else unescSt (.hex (p - 1) (acc * 16 + h) bigU) r

/-- `unicode_escape` decoding of a whole string. -/
def unesc (l : List Char) : Option (List Char) := unescSt .norm l

/-- `parse_terminal_text` from the source:
`text.encode().decode("unicode_escape")` on the `--extra` value, `None`
passing through; the outer `none` models the `UnicodeDecodeError` the codec
raises on malformed input, which `main` does not catch. -/
def parse_terminal_text : Option String → Option (Option String)
  | none => some none
  | some t => (unesc t.data).map (fun l => some (⟨l⟩ : String))

/-- `parse_args` after argparse has recognized the flags: the only extra
validation is that `--no-toc` requires `--no-dirs`; `parser.error` prints a
usage message and exits with status 2. -/
def parse_args (no_dirs no_toc : Bool) (extra : Option String) :
    Except String (Bool × Bool × Option String) :=
  if no_toc ∧ ¬no_dirs then
    .error "The --no-toc flag can only be used with --no-dirs."
  else .ok (no_dirs, no_toc, extra)

/-- `main` as (exit code, filesystem operations): flag validation happens
before anything else (`parser.error` exits with status 2); then
`parse_terminal_text` decodes the `--extra` value, and its uncaught
`UnicodeDecodeError` aborts with a traceback (exit status 1) before any
prompt or file I/O; an uncaught `EOFError` during input collection likewise
aborts with status 1 before any file I/O; otherwise the course is generated
and the process exits 0. -/
def main_run (no_dirs no_toc : Bool) (extra : Option String) (stdin : Inp)
    (cwd : String) : Nat × List FsOp :=
  match parse_args no_dirs no_toc extra with
  | .error _ => (2, [])
  | .ok args =>
    let write_dirs := !args.1
    match parse_terminal_text args.2.2 with
    | none => (1, [])
    | some extra_section =>
      match get_user_input write_dirs stdin with
      | none => (1, [])
      | some course =>
        (0, generate_course course write_dirs extra_section args.2.1 cwd)

/-- C2 counterexample: the claim says every valid flag combination exits
zero, but `--extra` with the single-backslash value is a valid flag
combination on which `unicode_escape` decoding raises (backslash at end of
string), so the process exits 1 — before any prompt and with no filesystem
operation — even though the same session without `--extra` completes and
exits 0. -/
theorem claim_C2_counterexample :
    parse_terminal_text (some "\\") = none ∧
      main_run true false (some "\\")
        [some "", some "T", some "S", none] "d" = (1, []) ∧
      (main_run true false (some "\\")
        [some "", some "T", some "S", none] "d").1 ≠ 0 ∧
      (main_run true false none
        [some "", some "T", some "S", none] "d").1 = 0 := by decide

/-- C2 (amended): if `--no-toc` is given without `--no-dirs`, the program
reports a usage error and exits with status 2 — which is non-zero — having
performed no filesystem operation; with any valid flag combination the exit
code is zero provided the `--extra` value (when present) decodes without a
`unicode_escape` error and the input session completes — a malformed escape
in `--extra` (see the counterexample) or an end-of-input at the three
initial prompts aborts non-zero instead. -/
theorem claim_C2 (nd nt : Bool) (extra : Option String) (stdin : Inp)
    (cwd : String) :
    (nt = true ∧ nd = false →
      main_run nd nt extra stdin cwd = (2, []) ∧
        (main_run nd nt extra stdin cwd).1 ≠ 0) ∧
    (¬(nt = true ∧ nd = false) →
      ∀ es c, parse_terminal_text extra = some es →
        get_user_input (!nd) stdin = some c →
        (main_run nd nt extra stdin cwd).1 = 0) := by
  constructor
  · rintro ⟨rfl, rfl⟩
    exact ⟨rfl, Nat.succ_ne_zero 1⟩
  · intro h es c hes hc
    cases nd <;> cases nt <;>
      simp_all [main_run, parse_args]

/-- Witness for C2: the invalid combination exits 2 with no filesystem
operations, and a valid flat-mode session with no `--extra` exits 0. -/
theorem claim_C2_witness :
    (main_run false true none [] "d" = (2, []) ∧
      (main_run false true none [] "d").1 ≠ 0) ∧
    (main_run true false none
      [some "", some "T", some "S", none] "d").1 = 0 := by
  refine ⟨(claim_C2 false true none [] "d").1 ⟨rfl, rfl⟩, ?_⟩
  exact (claim_C2 true false none [some "", some "T", some "S", none] "d").2
    (by simp) none ⟨"T", "S", none, []⟩ (by decide) (by decide)

/-- C7 counterexample: the claim says the end-of-input signal terminates
only the current prompting loop level, never the whole program; but an
`EOFError` at the very first (course-number) prompt is not caught, so input
collection aborts and the process, run with valid flags, exits non-zero
having generated nothing. -/
theorem claim_C7_counterexample :
    get_user_input true [none] = none ∧
      main_run false false none [none] "d" = (1, []) ∧
      (main_run false false none [none] "d").1 ≠ 0 := by decide

theorem numberLoop_first_valid (junk : List String) (v : String) (n : Int)
    (rest : Inp)
    (hjunk : ∀ j ∈ junk, pyStrip j ≠ "" ∧ pyInt? (pyStrip j) = none)
    (hv : pyInt? (pyStrip v) = some n) :
    numberLoop (junk.map some ++ some v :: rest) = some (some n, rest) := by
  induction junk with
  | nil =>
    have hvne : pyStrip v ≠ "" := by
      intro h0; rw [h0] at hv; exact Option.noConfusion hv
    simp [numberLoop, hvne, hv]
  | cons j js ih =>
    obtain ⟨hj1, hj2⟩ := hjunk j (List.mem_cons_self j js)
    simp only [List.map_cons, List.cons_append, numberLoop]
    simp [hj1, hj2]
    exact ih (fun x hx => hjunk x (List.mem_cons_of_mem _ hx))

theorem titleLoop_first_nonblank (blanks : List String) (t : String)
    (rest : Inp) (hblanks : ∀ b ∈ blanks, pyStrip b = "")
    (ht : pyStrip t ≠ "") :
    titleLoop (blanks.map some ++ some t :: rest) = some (pyStrip t, rest) := by
  induction blanks with
  | nil => simp [titleLoop, ht]
  | cons b bs ih =>
    have hb := hblanks b (List.mem_cons_self b bs)
    simp [titleLoop, hb]
    exact ih (fun x hx => hblanks x (List.mem_cons_of_mem _ hx))

/-- C7 (amended): a non-blank course-number entry that is not a valid
integer causes a re-prompt — never a crash and never acceptance — and the
first valid entry is the one stored; a blank or whitespace-only course
title causes a re-prompt and the first non-blank title is the one stored
(third conjunct: the returned course carries exactly those first valid
entries); and during the section/subsection loops the end-of-input signal
terminates only the current loop level (fourth conjunct: a first EOF ends
only the first section's subsection loop, a second ends the second
section's, a third ends the section loop, and collection still returns
normally).  The amendment: an end-of-input signal at the course-number,
course-title or short-title prompt is not caught and aborts the whole
program (see the counterexample). -/
theorem claim_C7 (wd : Bool) (junk blanks : List String)
    (v t st s1 sub s2 : String) (n : Int) (rest r : Inp)
    (hjunk : ∀ j ∈ junk, pyStrip j ≠ "" ∧ pyInt? (pyStrip j) = none)
    (hv : pyInt? (pyStrip v) = some n)
    (hblanks : ∀ b ∈ blanks, pyStrip b = "")
    (ht : pyStrip t ≠ "") :
    numberLoop (junk.map some ++ some v :: rest) = some (some n, rest) ∧
    titleLoop (blanks.map some ++ some t :: rest) = some (pyStrip t, rest) ∧
    get_user_input wd
        (junk.map some ++ some v ::
          (blanks.map some ++ some t :: some st :: rest)) =
      some ⟨pyStrip t, pyStrip st, some n, (secLoop wd rest).1⟩ ∧
    secLoop true
        (some s1 :: some sub :: none :: some s2 :: none :: none :: r) =
      ([⟨pyStrip s1, [pyStrip sub]⟩, ⟨pyStrip s2, []⟩], r) := by
  refine ⟨numberLoop_first_valid junk v n rest hjunk hv,
    titleLoop_first_nonblank blanks t rest hblanks ht, ?_, ?_⟩
  · have h1 := numberLoop_first_valid junk v n
      (blanks.map some ++ some t :: some st :: rest) hjunk hv
    have h2 := titleLoop_first_nonblank blanks t (some st :: rest) hblanks ht
    simp [get_user_input, h1, h2]
  · simp [secLoop, subLoopIn]

/-- Witness for C7: one invalid number entry `"a"`, then `"1"`; one blank
title, then a padded one; EOFs ending each subsection loop and the section
loop in turn. -/
theorem claim_C7_witness :
    numberLoop ((["a"].map some) ++ some "1" :: [some "S", none]) =
      some (some 1, [some "S", none]) ∧
    titleLoop (([" "].map some) ++ some " My Course " :: [some "S", none]) =
      some (pyStrip " My Course ", [some "S", none]) ∧
    get_user_input true
        ((["a"].map some) ++ some "1" ::
          (([" "].map some) ++ some " My Course " :: some "MC" ::
            [some "S", none])) =
      some ⟨pyStrip " My Course ", pyStrip "MC", some 1,
        (secLoop true [some "S", none]).1⟩ ∧
    secLoop true
        (some "A" :: some "B" :: none :: some "C" :: none :: none :: []) =
      ([⟨pyStrip "A", [pyStrip "B"]⟩, ⟨pyStrip "C", []⟩], []) :=
  claim_C7 true ["a"] [" "] "1" " My Course " "MC" "A" "B" "C" 1
    [some "S", none] [] (by decide) (by decide) (by decide) (by decide)

/-- C10: blank or whitespace-only section and subsection titles are
accepted without re-prompting and stored as empty strings (first two
conjuncts); only the course title is validated for blankness; a complete
session with a whitespace-only section title returns a course whose single
section has the empty title (third conjunct), and generating that course in
directory mode writes files — three of them — so an empty-titled section
reaches file generation (fourth conjunct). -/
theorem claim_C10 (s : String) (rest : Inp) (h : pyStrip s = "") :
    secLoop true (some s :: none :: rest) =
      (⟨"", []⟩ :: (secLoop true rest).1, (secLoop true rest).2) ∧
    subLoopIn true "Sec" [] (some s :: none :: rest) =
      (⟨"Sec", [""]⟩ :: (secLoop true rest).1, (secLoop true rest).2) ∧
    get_user_input true
        [some "", some "T", some "S", some "  ", none, none] =
      some ⟨"T", "S", none, [⟨"", []⟩]⟩ ∧
    (writesOf (generate_course ⟨"T", "S", none, [⟨"", []⟩]⟩
        true none false "cwd")).length = 3 := by
  refine ⟨?_, ?_, by decide, ?_⟩
  · simp [secLoop, subLoopIn, h]
  · simp [subLoopIn, secLoop, h]
  · simp only [generate_course, generate_sections,
      generate_dir_and_markdown_files, create_markdown_file, enum1,
      writesOf, List.flatMap_cons, List.flatMap_nil, List.cons_append,
      List.nil_append, List.append_nil, List.singleton_append,
      List.filterMap_cons, List.filterMap_nil, reduceIte, List.length_cons,
      List.length_nil]

/-- Witness for C10 at a whitespace-only title and an empty remaining
stream. -/
theorem claim_C10_witness :
    secLoop true [some "   ", none] =
      (⟨"", []⟩ :: (secLoop true ([] : Inp)).1, (secLoop true ([] : Inp)).2) ∧
    subLoopIn true "Sec" [] [some "   ", none] =
      (⟨"Sec", [""]⟩ :: (secLoop true ([] : Inp)).1,
        (secLoop true ([] : Inp)).2) ∧
    get_user_input true
        [some "", some "T", some "S", some "  ", none, none] =
      some ⟨"T", "S", none, [⟨"", []⟩]⟩ ∧
    (writesOf (generate_course ⟨"T", "S", none, [⟨"", []⟩]⟩
        true none false "cwd")).length = 3 :=
  claim_C10 "   " [] (by decide)
